import Mathlib

/-!
Shallow embedding of the two Sphinx configuration files of this repository,
`docs/conf.py` and `docs/api/conf.py`, together with proofs about the
configuration values they bind.

Each file is a straight-line sequence of top-level assignments (plus two
`import` statements); we model Python values with `PyVal`, the expressions
actually occurring in the files with `Expr`, and the files themselves as
lists of statements evaluated in order against a binding environment.
The only environment input either file reads is the system clock, via
`datetime.date.today().year` in `docs/api/conf.py`; it is modelled by the
`Env` structure.
-/

/-- Python values occurring in the two configuration files: strings,
booleans, integers, lists, tuples, dictionaries, and opaque objects bound
by `import` statements. -/
inductive PyVal where
  | str (s : String)
  | bool (b : Bool)
  | int (n : Int)
  | list (xs : List PyVal)
  | tuple (xs : List PyVal)
  | dict (kvs : List (PyVal × PyVal))
  | imported (s : String)

/-- The build-time environment: the only part of it the files consult is
the current year, read by `datetime.date.today().year`. -/
structure Env where
  todayYear : Nat

/-- Render a formatted argument the way `str.format` renders the values
that actually occur in the files (strings verbatim, integers in decimal,
booleans as `True`/`False`); other values are not formatted by these
files. -/
def formatArgStr : PyVal → Option String
  | .str s => some s
  | .int n => some (toString n)
  | .bool b => some (if b then "True" else "False")
  | _ => none

/-- One pass of Python `str.format` with a single positional argument:
`\x7b0\x7d` is replaced by the argument, doubled braces denote literal
braces, and any other use of a brace is an error (as it is in Python for
the templates occurring in these files). -/
def pyFormatAux (arg : String) : List Char → Option String
  | [] => some ""
  | '\x7b' :: '\x7b' :: rest => (pyFormatAux arg rest).map (String.mk ['\x7b'] ++ ·)
  | '\x7b' :: '0' :: '\x7d' :: rest => (pyFormatAux arg rest).map (arg ++ ·)
  | '\x7b' :: _ => none
  | '\x7d' :: '\x7d' :: rest => (pyFormatAux arg rest).map (String.mk ['\x7d'] ++ ·)
  | '\x7d' :: _ => none
  | c :: rest => (pyFormatAux arg rest).map (String.mk [c] ++ ·)

/-- `tmpl.format(arg)` for the single-argument templates of these files. -/
def pyFormat1 (tmpl arg : String) : Option String :=
  pyFormatAux arg tmpl.data

/-- The expressions occurring at top level in the two configuration files:
literals, variable references, `tmpl.format(arg)` with a literal template,
`sep.join(list)` with a literal separator, list, tuple and dictionary
displays (all dictionary keys in the files are string literals), and
`datetime.date.today().year`. -/
inductive Expr where
  | lit (v : PyVal)
  | var (x : String)
  | format1 (tmpl : String) (arg : Expr)
  | joinList (sep : String) (xs : List Expr)
  | listE (xs : List Expr)
  | tupleE (xs : List Expr)
  | dictE (kvs : List (String × Expr))
  | todayYear

mutual

/-- Evaluate an expression against the build environment and the bindings
accumulated so far; `none` models a raised exception. -/
def evalExpr (env : Env) (ρ : List (String × PyVal)) : Expr → Option PyVal
  | .lit v => some v
  | .var x => ρ.lookup x
  | .todayYear => some (.int (Int.ofNat env.todayYear))
  | .format1 tmpl arg =>
      match evalExpr env ρ arg with
      | none => none
      | some v =>
        match formatArgStr v with
        | none => none
        | some s =>
          match pyFormat1 tmpl s with
          | none => none
          | some r => some (.str r)
  | .joinList sep xs =>
      match evalStrList env ρ xs with
      | none => none
      | some ss => some (.str (String.intercalate sep ss))
  | .listE xs =>
      match evalList env ρ xs with
      | none => none
      | some vs => some (.list vs)
  | .tupleE xs =>
      match evalList env ρ xs with
      | none => none
      | some vs => some (.tuple vs)
  | .dictE kvs =>
      match evalKVs env ρ kvs with
      | none => none
      | some ps => some (.dict ps)

/-- Evaluate the elements of a list or tuple display in order. -/
def evalList (env : Env) (ρ : List (String × PyVal)) : List Expr → Option (List PyVal)
  | [] => some []
  | e :: es =>
      match evalExpr env ρ e, evalList env ρ es with
      | some v, some vs => some (v :: vs)
      | _, _ => none

/-- Evaluate the argument of `sep.join`: every element must be a string,
as Python raises `TypeError` otherwise. -/
def evalStrList (env : Env) (ρ : List (String × PyVal)) : List Expr → Option (List String)
  | [] => some []
  | e :: es =>
      match evalExpr env ρ e, evalStrList env ρ es with
      | some (.str s), some ss => some (s :: ss)
      | _, _ => none

/-- Evaluate the entries of a dictionary display in order. -/
def evalKVs (env : Env) (ρ : List (String × PyVal)) :
    List (String × Expr) → Option (List (PyVal × PyVal))
  | [] => some []
  | (k, e) :: rest =>
      match evalExpr env ρ e, evalKVs env ρ rest with
      | some v, some ps => some ((.str k, v) :: ps)
      | _, _ => none

end

/-- A top-level statement of either file: an assignment, or an `import`
(plain or `from ... import ...`) binding one module-level object. -/
inductive Stmt where
  | assign (x : String) (e : Expr)
  | imp (x : String)

/-- The name a statement binds. -/
def stmtName : Stmt → String
  | .assign x _ => x
  | .imp x => x

/-- Run a statement list from top to bottom, threading the bindings;
the most recent binding is at the head. `none` models an uncaught
exception aborting the evaluation. -/
def runStmts (env : Env) : List Stmt → List (String × PyVal) → Option (List (String × PyVal))
  | [], ρ => some ρ
  | .assign x e :: rest, ρ =>
      match evalExpr env ρ e with
      | none => none
      | some v => runStmts env rest ((x, v) :: ρ)
  | .imp x :: rest, ρ => runStmts env rest ((x, .imported x) :: ρ)

/-- `docs/conf.py`, statement by statement. -/
def docsProgram : List Stmt := [
  .assign "copyright" (.lit (.str "2020-present, Inrupt Inc.")),
  .assign "name" (.lit (.str "solid-client")),
  .assign "repo_name" (.format1 "{0}-js" (.var "name")),
  .assign "replacement_string" (.format1 ".. |product|  replace:: ``{0}``" (.var "name")),
  .assign "rst_epilog" (.joinList "\n" [.var "replacement_string"]),
  .assign "pygments_style" (.lit (.str "sphinx")),
  .assign "source_suffix" (.dictE [
    (".rst", .lit (.str "restructuredtext")),
    (".md", .lit (.str "markdown"))]),
  .imp "lexers",
  .assign "highlight_language" (.lit (.str "javascript")),
  .assign "extensions" (.listE [
    .lit (.str "sphinx_copybutton"),
    .lit (.str "sphinx.ext.extlinks"),
    .lit (.str "sphinx_tabs.tabs"),
    .lit (.str "sphinx.ext.todo"),
    .lit (.str "myst_parser")]),
  .assign "extlinks" (.dictE [
    ("apimodule", .tupleE [.lit (.str "./api/module"), .lit (.str "")])]),
  .assign "templates_path" (.listE [.lit (.str "./_templates")]),
  .assign "exclude_patterns" (.listE [.lit (.str "./source/reference/api")]),
  .assign "html_theme" (.lit (.str "inrupt")),
  .assign "html_theme_path" (.listE [.lit (.str "./themes")]),
  .assign "html_copy_source" (.lit (.bool false)),
  .assign "html_title" (.format1 "Inrupt {0} Documentation" (.var "name")),
  .assign "html_theme_options" (.dictE [
    ("project_title", .format1 "Inrupt {0} Documentation" (.var "name")),
    ("banner", .lit (.bool true)),
    ("banner_msg", .lit (.str "This is a Beta (i.e. in progress) version of the manual. Content and features are subject to change.")),
    ("robots_index", .lit (.bool true)),
    ("github_editable", .lit (.bool true)),
    ("github_org", .lit (.str "inrupt")),
    ("github_repo", .var "repo_name"),
    ("github_branch", .lit (.str "master")),
    ("ess_docs", .lit (.str "https://docs.inrupt.com/ess/")),
    ("clientlibjs_docs", .format1 "https://docs.inrupt.com/client-libraries/{0}/" (.var "repo_name"))]),
  .assign "html_static_path" (.listE [.lit (.str "_static")]),
  .assign "locale_dirs" (.listE [.lit (.str "locale/")]),
  .assign "gettext_compact" (.lit (.bool false))]

/-- `docs/api/conf.py`, statement by statement. -/
def apiProgram : List Stmt := [
  .imp "datetime",
  .assign "copyright" (.format1 "{0} Inrupt Inc." .todayYear),
  .assign "name" (.lit (.str "solid-client API")),
  .assign "repo_name" (.format1 "{0}-js" (.var "name")),
  .assign "pygments_style" (.lit (.str "sphinx")),
  .assign "source_suffix" (.dictE [
    (".rst", .lit (.str "restructuredtext")),
    (".md", .lit (.str "markdown"))]),
  .imp "lexers",
  .assign "highlight_language" (.lit (.str "javascript")),
  .assign "extensions" (.listE [
    .lit (.str "sphinx.ext.extlinks"),
    .lit (.str "myst_parser")]),
  .assign "templates_path" (.listE [.lit (.str "./docs-assets/_templates")]),
  .assign "exclude_patterns" (.listE []),
  .assign "html_theme" (.lit (.str "inrupt")),
  .assign "html_theme_path" (.listE [.lit (.str "./docs-assets/themes")]),
  .assign "html_copy_source" (.lit (.bool false)),
  .assign "html_title" (.format1 "Inrupt {0} Documentation" (.var "name")),
  .assign "html_theme_options" (.dictE [
    ("project_title", .format1 "Inrupt {0}" (.var "name")),
    ("banner", .lit (.bool false)),
    ("banner_msg", .lit (.str "")),
    ("robots_index", .lit (.bool true)),
    ("github_editable", .lit (.bool false)),
    ("github_org", .lit (.str "inrupt")),
    ("github_repo", .var "repo_name"),
    ("github_branch", .lit (.str "main")),
    ("docs_project", .lit (.str "developer-tools/api/javascript/solid-client")),
    ("show_api_menu", .lit (.bool true)),
    ("footer_items", .listE [.lit (.str "copyright.html")]),
    ("navbar_align", .lit (.str "left")),
    ("icon_links", .listE [
      .dictE [
        ("name", .lit (.str "Support Desk")),
        ("url", .lit (.str "https://inrupt.atlassian.net/servicedesk")),
        ("icon", .lit (.str "fas fa-tools"))],
      .dictE [
        ("name", .lit (.str "Solid forum")),
        ("url", .lit (.str "https://forum.solidproject.org/")),
        ("icon", .lit (.str "fas fa-users"))],
      .dictE [
        ("name", .lit (.str "Inrupt Blog")),
        ("url", .lit (.str "https://inrupt.com/blog")),
        ("icon", .lit (.str "fas fa-blog"))]]),
    ("favicons", .listE [
      .dictE [
        ("rel", .lit (.str "icon")),
        ("sizes", .lit (.str "16x16")),
        ("href", .lit (.str "https://docs.inrupt.com/inrupt_stickers_v2-03.png"))]])]),
  .assign "html_static_path" (.listE [.lit (.str "./docs-assets/_static")]),
  .assign "html_sidebars" (.dictE [
    ("**", .listE [.lit (.str "search-field.html"), .lit (.str "docs-sidebar.html")])]),
  .assign "locale_dirs" (.listE [.lit (.str "locale/")]),
  .assign "gettext_compact" (.lit (.bool false)),
  .assign "myst_heading_anchors" (.lit (.int 6)),
  .assign "myst_url_schemes" (.listE [.lit (.str "https")])]

/-- Evaluating `docs/conf.py` in a given environment. -/
def docsConf (env : Env) : Option (List (String × PyVal)) :=
  runStmts env docsProgram []

/-- Evaluating `docs/api/conf.py` in a given environment. -/
def apiConf (env : Env) : Option (List (String × PyVal)) :=
  runStmts env apiProgram []

/-- Look a top-level configuration variable up in an evaluation result. -/
def getVar (r : Option (List (String × PyVal))) (x : String) : Option PyVal :=
  r.bind (fun ρ => ρ.lookup x)

/-- Dictionary lookup with a string key. -/
def dlookup : List (PyVal × PyVal) → String → Option PyVal
  | [], _ => none
  | (.str k, v) :: rest, x => if k = x then some v else dlookup rest x
  | (_, _) :: rest, x => dlookup rest x

/-- Look a string key up inside a value that should be a dictionary. -/
def getKey (r : Option PyVal) (k : String) : Option PyVal :=
  match r with
  | some (.dict kvs) => dlookup kvs k
  | _ => none

/-- Is the value a string? -/
def PyVal.isStr : PyVal → Bool
  | .str _ => true
  | _ => false

/-- Is the value a string or a boolean? -/
def PyVal.isStrOrBool : PyVal → Bool
  | .str _ => true
  | .bool _ => true
  | _ => false

/-- Is the value a list all of whose elements are strings? -/
def isStrList : PyVal → Bool
  | .list xs => xs.all PyVal.isStr
  | _ => false

/-- Is the value a dictionary all of whose values are strings? -/
def flatStrDict : PyVal → Bool
  | .dict kvs => kvs.all (fun p => p.2.isStr)
  | _ => false

/-- Is the value a list of dictionaries whose values are all strings? -/
def isFlatStrDictList : PyVal → Bool
  | .list xs => xs.all flatStrDict
  | _ => false

/-- Is the looked-up value present and a string? -/
def isStrOpt (r : Option PyVal) : Bool :=
  match r with
  | some v => v.isStr
  | none => false

/-- Is the looked-up value present and a dictionary? -/
def isDictOpt (r : Option PyVal) : Bool :=
  match r with
  | some (.dict _) => true
  | _ => false

/-- Is the looked-up value present and a list of strings? -/
def isStrListOpt (r : Option PyVal) : Bool :=
  match r with
  | some v => isStrList v
  | none => false

/-- Is the looked-up value a flat dictionary whose values are all strings
or booleans? -/
def flatStrBoolOpt (r : Option PyVal) : Bool :=
  match r with
  | some (.dict kvs) => kvs.all (fun p => p.2.isStrOrBool)
  | _ => false

/-- Is the looked-up value a dictionary each of whose values is a tuple of
strings? -/
def valuesAreStrTuplesOpt (r : Option PyVal) : Bool :=
  match r with
  | some (.dict kvs) => kvs.all (fun p =>
      match p.2 with
      | .tuple xs => xs.all PyVal.isStr
      | _ => false)
  | _ => false

/-- Is the looked-up value a dictionary each of whose values is a list of
strings? -/
def valuesAreStrListsOpt (r : Option PyVal) : Bool :=
  match r with
  | some (.dict kvs) => kvs.all (fun p => isStrList p.2)
  | _ => false

/-- The shape of one entry of `html_theme_options` in `docs/api/conf.py`:
`footer_items` maps to a list of strings, `icon_links` and `favicons` map
to lists of flat string-valued dictionaries, and every other key maps to a
string or a boolean. -/
def apiThemeValueOK (k : String) (v : PyVal) : Bool :=
  if k = "footer_items" then isStrList v
  else if k = "icon_links" then isFlatStrDictList v
  else if k = "favicons" then isFlatStrDictList v
  else v.isStrOrBool

/-- Does the looked-up dictionary satisfy `apiThemeValueOK` entrywise? -/
def apiThemeOptionsShape (r : Option PyVal) : Bool :=
  match r with
  | some (.dict kvs) => kvs.all (fun p =>
      match p.1 with
      | .str k => apiThemeValueOK k p.2
      | _ => false)
  | _ => false

mutual

/-- Every dictionary contained in the value, at any depth, has only
string keys. -/
def PyVal.strKeys : PyVal → Bool
  | .dict kvs => strKeysKVs kvs
  | .list xs => strKeysList xs
  | .tuple xs => strKeysList xs
  | _ => true

/-- `PyVal.strKeys` over the elements of a list or tuple. -/
def strKeysList : List PyVal → Bool
  | [] => true
  | v :: vs => v.strKeys && strKeysList vs

/-- `PyVal.strKeys` over the entries of a dictionary, also checking that
each key is a string. -/
def strKeysKVs : List (PyVal × PyVal) → Bool
  | [] => true
  | (k, v) :: rest => k.isStr && v.strKeys && strKeysKVs rest

end

/-- Do all values bound by an evaluation satisfy `PyVal.strKeys`? -/
def bindingsAllStrKeys (r : Option (List (String × PyVal))) : Bool :=
  match r with
  | some ρ => ρ.all (fun p => p.2.strKeys)
  | none => false

/-- Are all the named variables bound to lists of strings? -/
def allStrLists (r : Option (List (String × PyVal))) (names : List String) : Bool :=
  names.all (fun n => isStrListOpt (getVar r n))

/-- A valid Python identifier start character. -/
def isIdentStart (c : Char) : Bool := c.isAlpha || c = '_'

/-- A valid Python identifier continuation character. -/
def isIdentChar (c : Char) : Bool := c.isAlphanum || c = '_'

/-- Split a character list at every dot. -/
def splitDots : List Char → List (List Char)
  | [] => [[]]
  | '.' :: rest => [] :: splitDots rest
  | c :: rest =>
      match splitDots rest with
      | [] => [[c]]
      | g :: gs => (c :: g) :: gs

/-- A valid non-empty Python identifier, as a character list. -/
def identChars : List Char → Bool
  | [] => false
  | c :: cs => isIdentStart c && cs.all isIdentChar

/-- A non-empty dot-separated sequence of Python identifiers, i.e. a valid
extension module name. -/
def isDottedIdent (s : String) : Bool :=
  (splitDots s.data).all identChars

/-- A non-empty relative path string: not empty and not starting with a
path separator. -/
def isRelPath (s : String) : Bool :=
  match s.data with
  | [] => false
  | c :: _ => c != '/'

/-- Is the looked-up value a list of valid extension module names? -/
def extListOK (r : Option PyVal) : Bool :=
  match r with
  | some (.list xs) => xs.all (fun v =>
      match v with
      | .str s => isDottedIdent s
      | _ => false)
  | _ => false

/-- Is the looked-up value a list of non-empty relative path strings? -/
def pathListOK (r : Option PyVal) : Bool :=
  match r with
  | some (.list xs) => xs.all (fun v =>
      match v with
      | .str s => isRelPath s
      | _ => false)
  | _ => false

/-- Remove one variable from an evaluation result. -/
def dropVar (r : Option (List (String × PyVal))) (x : String) :
    Option (List (String × PyVal)) :=
  r.map (fun ρ => ρ.filter (fun p => p.1 != x))

/-- The value a variable receives at its first assignment in the program:
statements are run in order and the scan stops at the first statement
binding `x`, returning the value it binds there. -/
def firstVal (env : Env) : List Stmt → List (String × PyVal) → String → Option PyVal
  | [], ρ, x => ρ.lookup x
  | .assign y e :: rest, ρ, x =>
      match evalExpr env ρ e with
      | none => none
      | some v => if x = y then some v else firstVal env rest ((y, v) :: ρ) x
  | .imp y :: rest, ρ, x =>
      if x = y then some (.imported y) else firstVal env rest ((y, .imported y) :: ρ) x

/-- If a statement list binds no statement named `x`, running it leaves
the binding of `x` unchanged. -/
theorem lookup_runStmts_unbound (env : Env) :
    ∀ (p : List Stmt) (ρ ρ' : List (String × PyVal)) (x : String),
      x ∉ p.map stmtName → runStmts env p ρ = some ρ' →
      ρ'.lookup x = ρ.lookup x := by
  intro p
  induction p with
  | nil =>
    intro ρ ρ' x _ h
    simp [runStmts] at h
    subst h
    rfl
  | cons s rest ih =>
    intro ρ ρ' x hx hrun
    have hx1 : x ≠ stmtName s := by
      intro h
      exact hx (by simp [h])
    have hx2 : x ∉ rest.map stmtName := by
      intro h
      exact hx (by simp [h])
    cases s with
    | assign y e =>
      simp [runStmts] at hrun
      cases hev : evalExpr env ρ e with
      | none => rw [hev] at hrun; exact absurd hrun (by simp)
      | some v =>
        rw [hev] at hrun
        rw [ih _ _ _ hx2 hrun]
        have hbeq : (x == y) = false := beq_eq_false_iff_ne.mpr hx1
        simp [List.lookup, hbeq]
    | imp y =>
      simp [runStmts] at hrun
      rw [ih _ _ _ hx2 hrun]
      have hbeq : (x == y) = false := beq_eq_false_iff_ne.mpr hx1
      simp [List.lookup, hbeq]

/-- When no name is bound twice, the final binding of every variable is
the value produced at its first (hence only) binding statement. -/
theorem lookup_runStmts_firstVal (env : Env) :
    ∀ (p : List Stmt) (ρ ρ' : List (String × PyVal)),
      (p.map stmtName).Nodup → runStmts env p ρ = some ρ' →
      ∀ x, ρ'.lookup x = firstVal env p ρ x := by
  intro p
  induction p with
  | nil =>
    intro ρ ρ' _ h x
    simp [runStmts] at h
    subst h
    rfl
  | cons s rest ih =>
    intro ρ ρ' hnd hrun x
    rw [List.map_cons, List.nodup_cons] at hnd
    have hnd1 : stmtName s ∉ rest.map stmtName := hnd.1
    have hnd2 : (rest.map stmtName).Nodup := hnd.2
    cases s with
    | assign y e =>
      simp [runStmts] at hrun
      cases hev : evalExpr env ρ e with
      | none => rw [hev] at hrun; exact absurd hrun (by simp)
      | some v =>
        rw [hev] at hrun
        simp only [firstVal, hev]
        by_cases hxy : x = y
        · subst hxy
          rw [lookup_runStmts_unbound env rest _ _ x hnd1 hrun]
          simp [List.lookup]
        · rw [ih _ _ hnd2 hrun x]
          simp [hxy]
    | imp y =>
      simp [runStmts] at hrun
      simp only [firstVal]
      by_cases hxy : x = y
      · subst hxy
        rw [lookup_runStmts_unbound env rest _ _ x hnd1 hrun]
        simp [List.lookup]
      · rw [ih _ _ hnd2 hrun x]
        simp [hxy]

/-- C1, counterexample: the value bound to `copyright` by `docs/api/conf.py`
differs between a build whose clock reads year 2025 and one whose clock
reads year 2026, so not every configuration value is a literal constant
independent of the environment. -/
theorem api_copyright_differs_across_years :
    getVar (apiConf ⟨2025⟩) "copyright" ≠ getVar (apiConf ⟨2026⟩) "copyright" := by
  intro h
  rw [show getVar (apiConf ⟨2025⟩) "copyright" = some (.str "2025 Inrupt Inc.") from rfl,
      show getVar (apiConf ⟨2026⟩) "copyright" = some (.str "2026 Inrupt Inc.") from rfl] at h
  exact absurd (PyVal.str.inj (Option.some.inj h)) (by decide)

/-- C1, amended: evaluating `docs/conf.py` binds every variable to the same
value in any two environments, and evaluating `docs/api/conf.py` does so
for every variable except `copyright`, whose value reads the system clock
through `datetime.date.today().year`. -/
theorem config_env_independent_except_api_copyright :
    (∀ e₁ e₂ : Env, docsConf e₁ = docsConf e₂) ∧
    (∀ e₁ e₂ : Env, dropVar (apiConf e₁) "copyright" = dropVar (apiConf e₂) "copyright") :=
  ⟨fun _ _ => rfl, fun _ _ => rfl⟩

/-- C2, counterexample: in `docs/api/conf.py` the `html_theme_options`
dictionary maps `footer_items` to a list, not to a string or boolean, so
not every option dictionary is a flat string/boolean-valued mapping. -/
theorem api_theme_options_contains_list_value :
    getKey (getVar (apiConf ⟨2026⟩) "html_theme_options") "footer_items" =
      some (.list [.str "copyright.html"]) ∧
    PyVal.isStrOrBool (.list [.str "copyright.html"]) = false :=
  ⟨rfl, rfl⟩

/-- C2, amended: `source_suffix` in both files and `html_theme_options` in
`docs/conf.py` are flat string/boolean-valued mappings; `extlinks` maps its
key to a tuple of strings; `html_sidebars` maps its key to a list of
strings; and `html_theme_options` in `docs/api/conf.py` maps every key to
a string or boolean except `footer_items` (a list of strings) and
`icon_links` and `favicons` (lists of flat string-valued dictionaries). -/
theorem option_dict_shapes : ∀ e : Env,
    flatStrBoolOpt (getVar (docsConf e) "source_suffix") = true ∧
    flatStrBoolOpt (getVar (apiConf e) "source_suffix") = true ∧
    flatStrBoolOpt (getVar (docsConf e) "html_theme_options") = true ∧
    valuesAreStrTuplesOpt (getVar (docsConf e) "extlinks") = true ∧
    valuesAreStrListsOpt (getVar (apiConf e) "html_sidebars") = true ∧
    apiThemeOptionsShape (getVar (apiConf e) "html_theme_options") = true :=
  fun _ => ⟨rfl, rfl, rfl, rfl, rfl, rfl⟩

/-- C3: `html_theme_options` binds `github_repo` to the string
`solid-client-js` in `docs/conf.py` and to `solid-client API-js` — a
string containing a space — in `docs/api/conf.py`, each obtained by
formatting the respective `name` value into `\x7b0\x7d-js`. -/
theorem github_repo_values : ∀ e : Env,
    getKey (getVar (docsConf e) "html_theme_options") "github_repo" =
      some (.str "solid-client-js") ∧
    getKey (getVar (apiConf e) "html_theme_options") "github_repo" =
      some (.str "solid-client API-js") ∧
    getVar (docsConf e) "name" = some (.str "solid-client") ∧
    getVar (apiConf e) "name" = some (.str "solid-client API") ∧
    ' ' ∈ "solid-client API-js".data :=
  fun _ => ⟨rfl, rfl, rfl, rfl, by decide⟩

/-- C4: in both files, `extensions`, `templates_path`, `html_static_path`,
`exclude_patterns` and `locale_dirs` evaluate to lists of strings,
`html_theme` evaluates to a string, and `html_theme_options` evaluates to
a dictionary. -/
theorem top_level_variable_types : ∀ e : Env,
    allStrLists (docsConf e)
      ["extensions", "templates_path", "html_static_path", "exclude_patterns", "locale_dirs"]
      = true ∧
    allStrLists (apiConf e)
      ["extensions", "templates_path", "html_static_path", "exclude_patterns", "locale_dirs"]
      = true ∧
    isStrOpt (getVar (docsConf e) "html_theme") = true ∧
    isStrOpt (getVar (apiConf e) "html_theme") = true ∧
    isDictOpt (getVar (docsConf e) "html_theme_options") = true ∧
    isDictOpt (getVar (apiConf e) "html_theme_options") = true :=
  fun _ => ⟨rfl, rfl, rfl, rfl, rfl, rfl⟩

/-- C5: in both files `html_theme` is the non-empty theme name `inrupt`,
every element of `extensions` is a non-empty dot-separated sequence of
Python identifiers, and every element of `templates_path`,
`html_static_path`, `html_theme_path` and `locale_dirs` is a non-empty
relative path string. -/
theorem config_values_well_formed : ∀ e : Env,
    getVar (docsConf e) "html_theme" = some (.str "inrupt") ∧
    getVar (apiConf e) "html_theme" = some (.str "inrupt") ∧
    "inrupt" ≠ "" ∧
    extListOK (getVar (docsConf e) "extensions") = true ∧
    extListOK (getVar (apiConf e) "extensions") = true ∧
    (["templates_path", "html_static_path", "html_theme_path", "locale_dirs"].all
      (fun n => pathListOK (getVar (docsConf e) n) && pathListOK (getVar (apiConf e) n)))
      = true :=
  fun _ => ⟨rfl, rfl, by decide, rfl, rfl, rfl⟩

/-- C6: every dictionary appearing in either file, at any nesting depth —
`source_suffix`, `extlinks`, `html_theme_options`, `html_sidebars`, and
the dictionaries inside `icon_links` and `favicons` — has only string
keys. -/
theorem all_dict_keys_are_strings : ∀ e : Env,
    bindingsAllStrKeys (docsConf e) = true ∧ bindingsAllStrKeys (apiConf e) = true :=
  fun _ => ⟨rfl, rfl⟩

/-- C7: evaluating either file from top to bottom succeeds in every
environment: no format call, list, tuple or dictionary construction, join
or variable reference fails, so the run reaches the end and produces
bindings. The statement lists contain only assignments and imports, so the
files also define no error type or handler of their own. -/
theorem evaluation_always_succeeds : ∀ e : Env,
    (docsConf e).isSome = true ∧ (apiConf e).isSome = true :=
  fun _ => ⟨rfl, rfl⟩

/-- C8: in both files every top-level statement binds a distinct name, and
in every environment the final binding of every variable equals the value
produced at its first (hence only) binding statement; no statement rebinds
a name, and the statement lists contain no mutation at all. -/
theorem single_assignment_no_rebinding :
    ((docsProgram.map stmtName).Nodup ∧ (apiProgram.map stmtName).Nodup) ∧
    (∀ (e : Env) (x : String), getVar (docsConf e) x = firstVal e docsProgram [] x) ∧
    (∀ (e : Env) (x : String), getVar (apiConf e) x = firstVal e apiProgram [] x) := by
  refine ⟨⟨by decide, by decide⟩, ?_, ?_⟩
  · intro e x
    have h : runStmts e docsProgram [] = some ((runStmts e docsProgram []).getD []) := rfl
    exact lookup_runStmts_firstVal e docsProgram [] _ (by decide) h x
  · intro e x
    have h : runStmts e apiProgram [] = some ((runStmts e apiProgram []).getD []) := rfl
    exact lookup_runStmts_firstVal e apiProgram [] _ (by decide) h x

/-- C9: in `docs/conf.py`, `rst_epilog` evaluates to the single-line
string `.. |product|  replace:: ` followed by `solid-client` in double
backticks — the newline join of a one-element list adds no newline — and
that string contains the product name `solid-client` bound to `name`. -/
theorem rst_epilog_value : ∀ e : Env,
    getVar (docsConf e) "rst_epilog" =
      some (.str ".. |product|  replace:: ``solid-client``") ∧
    getVar (docsConf e) "name" = some (.str "solid-client") ∧
    (".. |product|  replace:: ``solid-client``" =
      ".. |product|  replace:: ``" ++ "solid-client" ++ "``") ∧
    ((".. |product|  replace:: ``solid-client``").data.all (fun c => c != '\n')) = true :=
  fun _ => ⟨rfl, rfl, by decide, by decide⟩

/-- C10: for every build environment, `copyright` in `docs/api/conf.py`
evaluates to the decimal digits of the current year followed by
` Inrupt Inc.`, while `copyright` in `docs/conf.py` evaluates to the fixed
string `2020-present, Inrupt Inc.` regardless of the date. -/
theorem copyright_values : ∀ e : Env,
    getVar (apiConf e) "copyright" =
      some (.str (toString e.todayYear ++ " Inrupt Inc.")) ∧
    getVar (docsConf e) "copyright" = some (.str "2020-present, Inrupt Inc.") ∧
    getVar (apiConf ⟨2026⟩) "copyright" = some (.str "2026 Inrupt Inc.") :=
  fun _ => ⟨rfl, rfl, rfl⟩
